import Mathlib

/-!
Verification of the compose-area / file-input discovery-and-injection heuristic
of the NestFTs browser extension (src/src/contents/inventory-modal-ui.tsx and
the inventory-button content script).

The DOM is shallowly embedded: a document is a finite set of element ids with
per-element attribute / computed-style / bounding-rect data and an ancestor
chain.  `getComputedStyle` and `getBoundingClientRect` on a node that is not
attached to the document return empty style strings and an all-zero rect,
matching browser behaviour for detached nodes.  `document.elementFromPoint` is
modelled as an oracle function `topAt` carried by the document.  Geometry is
exact rational arithmetic; the proximity search compares squared Euclidean
distances, which orders candidates identically to the `Math.sqrt` distances
compared by the source because the square root is strictly monotone on
nonnegative reals.
-/

namespace NestFTs

/-- Substring test, modelling JavaScript `String.prototype.includes`. -/
def strContains (hay needle : String) : Bool :=
  let h := hay.toList
  let n := needle.toList
  (List.range (h.length + 1)).any (fun k => n.isPrefixOf (h.drop k))

/-- Lowercasing, modelling JavaScript `String.prototype.toLowerCase` on the
ASCII attribute values in play. -/
def strLower (s : String) : String := String.mk (s.toList.map Char.toLower)

/-- Numeric value of a digit string. -/
def digitsToNat (cs : List Char) : Nat :=
  cs.foldl (fun a c => a * 10 + (c.toNat - '0'.toNat)) 0

/-- Exact rational numbers as unnormalized `Int` fractions.  Every operation
below keeps the denominator positive, so the cross-multiplication order is the
rational order.  (Denominators are only ever divided by the positive literal
constants appearing in the source, so they stay positive.)  The source
computes with JavaScript doubles; all quantities in play are exactly
representable, so exact rational arithmetic is faithful. -/
structure Q where
  num : Int
  den : Int

def Q.ofNat (n : Nat) : Q := ⟨(n : Int), 1⟩

instance (n : Nat) : OfNat Q n := ⟨Q.ofNat n⟩

instance : Neg Q := ⟨fun x => ⟨-x.num, x.den⟩⟩

instance : Add Q := ⟨fun x y => ⟨x.num * y.den + y.num * x.den, x.den * y.den⟩⟩

instance : Sub Q := ⟨fun x y => ⟨x.num * y.den - y.num * x.den, x.den * y.den⟩⟩

instance : Mul Q := ⟨fun x y => ⟨x.num * y.num, x.den * y.den⟩⟩

instance : Div Q := ⟨fun x y =>
  if y.num < 0 then ⟨-(x.num * y.den), -(x.den * y.num)⟩
  else ⟨x.num * y.den, x.den * y.num⟩⟩

instance : LT Q := ⟨fun x y => x.num * y.den < y.num * x.den⟩

instance : LE Q := ⟨fun x y => x.num * y.den ≤ y.num * x.den⟩

instance (x y : Q) : Decidable (x < y) :=
  inferInstanceAs (Decidable (x.num * y.den < y.num * x.den))

instance (x y : Q) : Decidable (x ≤ y) :=
  inferInstanceAs (Decidable (x.num * y.den ≤ y.num * x.den))

instance : BEq Q := ⟨fun x y => x.num * y.den == y.num * x.den⟩

/-- `Math.min`. -/
def Q.min (x y : Q) : Q := if x ≤ y then x else y

/-- `Math.max`. -/
def Q.max (x y : Q) : Q := if x ≤ y then y else x

/-- Models JavaScript `parseFloat` on the strings produced for computed style
values (`""`, `"0"`, `"1"`, `"0.05"`, ...): `none` models `NaN`. -/
def parseFloatQ (s : String) : Option Q :=
  let cs := s.toList
  let intPart := cs.takeWhile Char.isDigit
  if intPart.isEmpty then none
  else
    let rest := cs.dropWhile Char.isDigit
    let ip : Q := Q.ofNat (digitsToNat intPart)
    match rest with
    | '.' :: r2 =>
      let frac := r2.takeWhile Char.isDigit
      some (ip + Q.ofNat (digitsToNat frac) / Q.ofNat (10 ^ frac.length))
    | _ => some ip

/-- `parseFloat(s) < q` with JavaScript `NaN` semantics: `NaN < q` is false. -/
def floatLt (o : Option Q) (q : Q) : Bool :=
  match o with
  | none => false
  | some v => decide (v < q)

/-- `parseFloat(s) > q` with JavaScript `NaN` semantics: `NaN > q` is false. -/
def floatGt (o : Option Q) (q : Q) : Bool :=
  match o with
  | none => false
  | some v => decide (q < v)

/-- Models `parseInt(s) || 0`: a non-numeric prefix (`NaN`) yields `0`. -/
def parseIntOr0 (s : String) : Q :=
  match s.toList with
  | '-' :: cs =>
    let ds := cs.takeWhile Char.isDigit
    if ds.isEmpty then 0 else -(Q.ofNat (digitsToNat ds))
  | cs =>
    let ds := cs.takeWhile Char.isDigit
    if ds.isEmpty then 0 else Q.ofNat (digitsToNat ds)

/-- A bounding client rect. -/
structure Rect where
  left : Q
  top : Q
  width : Q
  height : Q

def Rect.right (r : Rect) : Q := r.left + r.width

def Rect.bottom (r : Rect) : Q := r.top + r.height

/-- The computed-style properties the heuristics read. -/
structure CssStyle where
  display : String
  visibility : String
  opacity : String
  pointerEvents : String
  zIndex : String

/-- Per-element data: tag, the attributes the source reads, the rendered
computed style and bounding rect (as reported while the node is attached). -/
structure ElemData where
  tag : String := ""
  role : Option String := none
  ariaModal : Option String := none
  contenteditable : Option String := none
  /-- The `input.type` property, also matched by `[type="..."]` selectors. -/
  inputType : String := ""
  /-- The `accept` attribute; `""` when absent (the property reads `""`). -/
  acceptAttr : String := ""
  disabled : Bool := false
  readonly : Bool := false
  ariaLabel : Option String := none
  dataTestId : Option String := none
  /-- Whether the `data-text` attribute is present. -/
  dataText : Bool := false
  /-- Whether the `data-slate-editor` attribute is present. -/
  dataSlateEditor : Bool := false
  classes : List String := []
  /-- Whether the inline `style` attribute contains `position: fixed`. -/
  styleFixed : Bool := false
  style : CssStyle := ⟨"", "", "", "", ""⟩
  rect : Rect := ⟨0, 0, 0, 0⟩

/-- A document: element ids in document (preorder) order, per-element data,
proper-ancestor chains (nearest first), the body, viewport size, the focused
element, and the `elementFromPoint` oracle. -/
structure Dom where
  elems : List Nat
  data : Nat → ElemData
  anc : Nat → List Nat
  body : Nat
  innerWidth : Q
  innerHeight : Q
  activeElement : Option Nat
  topAt : Q → Q → Option Nat

/-- `document.contains`: the node is the body or has the body as ancestor. -/
def Dom.attachedB (d : Dom) (i : Nat) : Bool :=
  i == d.body || (d.anc i).contains d.body

/-- `window.getComputedStyle`: detached nodes report empty style strings. -/
def Dom.computedStyle (d : Dom) (i : Nat) : CssStyle :=
  if d.attachedB i then (d.data i).style else ⟨"", "", "", "", ""⟩

/-- `getBoundingClientRect`: detached nodes report an all-zero rect. -/
def Dom.boundingRect (d : Dom) (i : Nat) : Rect :=
  if d.attachedB i then (d.data i).rect else ⟨0, 0, 0, 0⟩

/-- `document.querySelectorAll` for a simple selector: attached elements
matching the predicate, in document order. -/
def queryAllDoc (d : Dom) (p : ElemData → Bool) : List Nat :=
  d.elems.filter (fun i => d.attachedB i && p (d.data i))

/-- `document.querySelectorAll` for a descendant-combinator selector
`A B`: attached elements matching `pSelf` with an ancestor matching `pAnc`. -/
def queryAllDocDesc (d : Dom) (pAnc pSelf : ElemData → Bool) : List Nat :=
  d.elems.filter (fun i =>
    d.attachedB i && pSelf (d.data i) && (d.anc i).any (fun j => pAnc (d.data j)))

/-- `container.querySelectorAll(sel)`: strict descendants of `c` matching the
selector, in document order. -/
def queryAllEl (d : Dom) (c : Nat) (p : ElemData → Bool) : List Nat :=
  d.elems.filter (fun i => (d.anc i).contains c && p (d.data i))

/-- `element.closest(sel)`: the element itself if it matches, else the nearest
matching ancestor. -/
def closestFrom (d : Dom) (i : Nat) (p : ElemData → Bool) : Option Nat :=
  if p (d.data i) then some i else (d.anc i).find? (fun j => p (d.data j))

/-- `Node.contains` (inclusive). `none` models a `null` argument. -/
def nodeContainsOpt (d : Dom) (a : Nat) (b : Option Nat) : Bool :=
  match b with
  | none => false
  | some x => a == x || (d.anc x).contains a

/-- Selector predicate `[role="r"]`. -/
def roleIs (r : String) (e : ElemData) : Bool := e.role == some r

/-- Selector predicate `[aria-modal="true"]`. -/
def ariaModalTrue (e : ElemData) : Bool := e.ariaModal == some "true"

/-- Selector predicate `[contenteditable="true"]`. -/
def contentEditableTrue (e : ElemData) : Bool := e.contenteditable == some "true"

/-- Selector predicate `[data-testid*="s"]`. -/
def testIdContainsP (s : String) (e : ElemData) : Bool :=
  (e.dataTestId.map (fun t => strContains t s)).getD false

/-- Selector predicate `[data-testid="s"]`. -/
def testIdIs (s : String) (e : ElemData) : Bool := e.dataTestId == some s

/-- Selector predicate `[aria-label*="s"]`. -/
def ariaLabelContainsP (s : String) (e : ElemData) : Bool :=
  (e.ariaLabel.map (fun t => strContains t s)).getD false

/-- Class selector `.c`. -/
def hasCssClass (c : String) (e : ElemData) : Bool := e.classes.contains c

/-- The modal/overlay marker selector used throughout the source:
`[role="dialog"], [aria-modal="true"], [data-testid*="Modal"], [data-testid*="Drawer"]`. -/
def isModalMarker (e : ElemData) : Bool :=
  roleIs "dialog" e || ariaModalTrue e || testIdContainsP "Modal" e ||
    testIdContainsP "Drawer" e

/-- `isValidComposeElement` (inventory-modal-ui.tsx lines 629-702): role /
contenteditable / input-type gate, disabled and readonly attributes, computed
display / visibility / opacity, minimum dimensions, expanded viewport,
pointer-events, and the aria-label / data-testid exclusion lists.  The source's
early returns are composed as one boolean conjunction. -/
def isValidComposeElement (d : Dom) (i : Nat) : Bool :=
  let e := d.data i
  let st := d.computedStyle i
  let r := d.boundingRect i
  (e.role == some "textbox" || e.contenteditable == some "true" ||
    (e.tag == "input" && (e.inputType == "text" || e.inputType == "search")) ||
    e.tag == "textarea")
  && !(e.disabled || e.readonly)
  && !(st.display == "none" || st.visibility == "hidden")
  && !(floatLt (parseFloatQ st.opacity) (1/10))
  && !(decide (r.width < 30) || decide (r.height < 15))
  && (decide (-100 < r.bottom) && decide (r.top < d.innerHeight + 100) &&
      decide (-100 < r.right) && decide (r.left < d.innerWidth + 100))
  && !(st.pointerEvents == "none")
  && !((e.ariaLabel.map (fun s =>
        strContains s "Search" || strContains s "search" ||
        strContains s "Username" || strContains s "Password")).getD false)
  && !((e.dataTestId.map (fun s =>
        strContains s "search" || strContains s "Search" ||
        strContains s "login" || strContains s "username")).getD false)

/-- `isValidFileInputForClick` (inventory-modal-ui.tsx lines 798-808): file
type, computed display/visibility, and an accept filter admitting images, a
wildcard, or an unrestricted input. -/
def isValidFileInputForClick (d : Dom) (i : Nat) : Bool :=
  let e := d.data i
  let st := d.computedStyle i
  e.inputType == "file"
  && !(st.display == "none" || st.visibility == "hidden")
  && (let accept := strLower e.acceptAttr
      strContains accept "image" || strContains accept "*/*" || accept == "")

/-- `isValidFileInput` (inventory-button content script lines 247-272): like
`isValidFileInputForClick` but additionally admitting common image MIME
types. -/
def isValidFileInput (d : Dom) (i : Nat) : Bool :=
  let e := d.data i
  let st := d.computedStyle i
  e.inputType == "file"
  && !(st.display == "none" || st.visibility == "hidden")
  && (let accept := strLower e.acceptAttr
      strContains accept "image" || strContains accept "*/*" || accept == "" ||
      strContains accept "png" || strContains accept "jpg" ||
      strContains accept "jpeg" || strContains accept "gif" ||
      strContains accept "webp")

/-- `isElementOnTop` (lines 489-501): the element rendered at the candidate's
center must contain the candidate or be contained in it. -/
def isElementOnTop (d : Dom) (i : Nat) : Bool :=
  let r := d.boundingRect i
  let cx := r.left + r.width / 2
  let cy := r.top + r.height / 2
  match d.topAt cx cy with
  | none => false
  | some t => nodeContainsOpt d i (some t) || nodeContainsOpt d t (some i)

/-- `scoreComposeElement` (lines 506-545): size, visibility, viewport,
z-index, modal-context, label, and focus bonuses, with penalties for disabled,
readonly and pointer-events: none, clamped below at zero. -/
def scoreComposeElement (d : Dom) (i : Nat) : Q :=
  let e := d.data i
  let r := d.boundingRect i
  let st := d.computedStyle i
  let sizeScore := Q.min (r.width / 100) 10 + Q.min (r.height / 20) 5
  let visScore :=
    (if st.visibility != "hidden" && st.display != "none" then (10 : Q) else 0) +
    (if floatGt (parseFloatQ st.opacity) (1/2) then (5 : Q) else 0)
  let posScore :=
    (if decide (0 ≤ r.top) && decide (r.bottom ≤ d.innerHeight) then (15 : Q) else 0) +
    (if decide (0 ≤ r.left) && decide (r.right ≤ d.innerWidth) then (10 : Q) else 0)
  let z := parseIntOr0 st.zIndex
  let zScore := if (0 : Q) < z then Q.min (z / 100) 10 else (0 : Q)
  let ctxScore :=
    (if (closestFrom d i (roleIs "dialog")).isSome then (20 : Q) else 0) +
    (if (closestFrom d i ariaModalTrue).isSome then (20 : Q) else 0) +
    (if (closestFrom d i (testIdContainsP "Modal")).isSome then (15 : Q) else 0) +
    (if ariaLabelContainsP "Post" e then (10 : Q) else 0) +
    (if testIdContainsP "tweet" e then (10 : Q) else 0)
  let focusScore :=
    (if d.activeElement == some i then (25 : Q) else 0) +
    (if nodeContainsOpt d i d.activeElement then (15 : Q) else 0)
  let penalty :=
    (if e.disabled then (-20 : Q) else 0) +
    (if e.readonly then (-20 : Q) else 0) +
    (if st.pointerEvents == "none" then (-10 : Q) else 0)
  Q.max 0 (sizeScore + visScore + posScore + zScore + ctxScore + focusScore + penalty)

/-- The best-scoring valid candidate, mirroring the source's
`let bestElement = null; let bestScore = 0; ... if (score > bestScore)`
accumulation (strict improvement, so the first of equal scores wins and a
zero-scoring element is never selected). -/
def bestScoredAux (d : Dom) : List Nat → Option Nat → Q → Option Nat
  | [], best, _ => best
  | e :: rest, best, bestScore =>
    if isValidComposeElement d e && decide (bestScore < scoreComposeElement d e) then
      bestScoredAux d rest (some e) (scoreComposeElement d e)
    else
      bestScoredAux d rest best bestScore

def bestScored (d : Dom) (l : List Nat) : Option Nat := bestScoredAux d l none 0

/-- Strategy 1 of `findActiveComposeArea`: the focused element, when valid. -/
def composeStrategyFocus (d : Dom) : Option Nat :=
  match d.activeElement with
  | some f => if isValidComposeElement d f then some f else none
  | none => none

/-- Strategy 2 of `findActiveComposeArea` (lines 283-291): the first
recently-observed candidate that is still valid, still in the document, and
scores above the high-confidence threshold of 30. -/
def composeStrategyRecent (d : Dom) (recent : List Nat) : Option Nat :=
  recent.find? (fun r =>
    isValidComposeElement d r && d.attachedB r &&
    decide ((30 : Q) < scoreComposeElement d r))

/-- The geometric gate of `findModalComposeArea` (lines 467-471): visible and
reasonably sized, fully vertically inside the viewport. -/
def modalComposeGeom (d : Dom) (i : Nat) : Bool :=
  let r := d.boundingRect i
  decide (100 < r.width) && decide (20 < r.height) &&
    decide (0 ≤ r.top) && decide (r.bottom ≤ d.innerHeight)

/-- The full per-candidate filter of `findModalComposeArea`. -/
def modalComposeCheck (d : Dom) (i : Nat) : Bool :=
  isValidComposeElement d i && modalComposeGeom d i && isElementOnTop d i

/-- The ancestor parts of the modal compose selectors (lines 450-459), most
specific first. -/
def modalAncestorPreds : List (ElemData → Bool) :=
  [roleIs "dialog", ariaModalTrue, testIdContainsP "Modal",
   testIdContainsP "Drawer", fun e => e.styleFixed]

/-- The candidates scanned by `findModalComposeArea`: the matches of the five
descendant selectors in selector order, document order within each. -/
def modalComposeCandidates (d : Dom) : List Nat :=
  modalAncestorPreds.flatMap (fun pa => queryAllDocDesc d pa (roleIs "textbox"))

/-- `findModalComposeArea` (lines 441-484): bail out when no modal marker is
present, else return the first candidate passing validity, geometry, and the
on-top test. -/
def findModalComposeArea (d : Dom) : Option Nat :=
  if (queryAllDoc d isModalMarker).isEmpty then none
  else (modalComposeCandidates d).find? (fun i => modalComposeCheck d i)

/-- The three selectors of `findBestVisibleComposeArea` (lines 551-555). -/
def visibleComposeSelectors : List (ElemData → Bool) :=
  [roleIs "textbox", testIdContainsP "tweetTextarea", contentEditableTrue]

/-- `findBestVisibleComposeArea` (lines 550-575): the best-scoring valid
element across the selectors. -/
def findBestVisibleComposeArea (d : Dom) : Option Nat :=
  bestScored d (visibleComposeSelectors.flatMap (fun p => queryAllDoc d p))

/-- The strategy-5 fallback selectors of `findActiveComposeArea`
(lines 306-329). -/
def fallbackComposeSelectors : List (ElemData → Bool) :=
  [fun e => roleIs "textbox" e && testIdContainsP "tweet" e,
   fun e => roleIs "textbox" e && contentEditableTrue e,
   testIdContainsP "tweetTextarea",
   testIdIs "tweetTextarea_0",
   testIdContainsP "replyTextarea",
   testIdIs "dmComposerTextInput",
   ariaLabelContainsP "Post text",
   ariaLabelContainsP "Tweet text",
   ariaLabelContainsP "Reply",
   ariaLabelContainsP "What is happening",
   roleIs "textbox",
   fun e => contentEditableTrue e && e.dataText,
   fun e => e.tag == "div" && contentEditableTrue e && !e.dataSlateEditor,
   hasCssClass "tweet-box",
   hasCssClass "compose-text"]

/-- Strategy 5 of `findActiveComposeArea` (lines 331-348): best-scoring valid
match across the fallback selectors. -/
def composeStrategyFallback (d : Dom) : Option Nat :=
  bestScored d (fallbackComposeSelectors.flatMap (fun p => queryAllDoc d p))

/-- `findActiveComposeArea` (lines 276-349): focused element, then recent
observer candidates, then modal compose areas, then the best visible
candidate, then the fallback selector list.  The module-global
`recentlyAddedComposeAreas` set is passed explicitly, in insertion order. -/
def findActiveComposeArea (d : Dom) (recent : List Nat) : Option Nat :=
  match composeStrategyFocus d with
  | some e => some e
  | none =>
    match composeStrategyRecent d recent with
    | some e => some e
    | none =>
      match findModalComposeArea d with
      | some e => some e
      | none =>
        match findBestVisibleComposeArea d with
        | some e => some e
        | none => composeStrategyFallback d

/-- The file-input selectors (lines 712-716 and 743-747), most specific
first: image-accepting file input, any file input, any image-accepting
input. -/
def fileInputSelectors : List (ElemData → Bool) :=
  [fun e => e.tag == "input" && e.inputType == "file" && strContains e.acceptAttr "image",
   fun e => e.tag == "input" && e.inputType == "file",
   fun e => e.tag == "input" && strContains e.acceptAttr "image"]

/-- Priority 1 of `findFileInputForCompose` (lines 711-727): inside the modal
container, scan each selector's matches in turn and return the first valid
input. -/
def modalFileInputScan (d : Dom) (c : Nat) : Option Nat :=
  (fileInputSelectors.flatMap (fun s => queryAllEl d c s)).find?
    (fun i => isValidFileInputForClick d i)

/-- One container of Priority 2 (lines 740-755): `querySelector` takes only
the first match of each selector; if it is invalid the next selector is
tried. -/
def containerSelectorScan (d : Dom) (c : Nat) : List (ElemData → Bool) → Option Nat
  | [] => none
  | s :: rest =>
    match (queryAllEl d c s).head? with
    | some i =>
      if isValidFileInputForClick d i then some i
      else containerSelectorScan d c rest
    | none => containerSelectorScan d c rest

/-- Priority 2 over the candidate containers in order. -/
def containerScan (d : Dom) : List Nat → Option Nat
  | [] => none
  | c :: rest =>
    match containerSelectorScan d c fileInputSelectors with
    | some i => some i
    | none => containerScan d rest

/-- The Priority-2 container candidates (lines 730-738): toolbar parent,
tweet/post ancestors, form, main-role container, parent, grandparent. -/
def containerCandidates (d : Dom) (compose : Nat) : List Nat :=
  [(closestFrom d compose (testIdIs "toolBar")).bind (fun t => (d.anc t).head?),
   closestFrom d compose (testIdContainsP "tweet"),
   closestFrom d compose (testIdContainsP "post"),
   closestFrom d compose (fun e => e.tag == "form"),
   closestFrom d compose (roleIs "main"),
   (d.anc compose).head?,
   ((d.anc compose).drop 1).head?].filterMap id

/-- Priority 3 of `findFileInputForCompose` (lines 757-792): every file input
in the document, filtered to valid ones — and, when the compose area sits in a
modal, to inputs that are themselves inside some modal container — keeping the
one closest by center-to-center distance.  Squared distances are compared; the
source compares `Math.sqrt` of them, an order-isomorphic quantity. -/
def proximityScan (d : Dom) (compose : Nat) (modalContainer : Option Nat) : Option Nat :=
  let inputs := queryAllDoc d (fun e => e.tag == "input" && e.inputType == "file")
  let cr := d.boundingRect compose
  let cx := cr.left + cr.width / 2
  let cy := cr.top + cr.height / 2
  (inputs.foldl (fun best i =>
      if !(isValidFileInputForClick d i) then best
      else if modalContainer.isSome && (closestFrom d i isModalMarker).isNone then best
      else
        let ir := d.boundingRect i
        let ix := ir.left + ir.width / 2
        let iy := ir.top + ir.height / 2
        let ds := (cx - ix) * (cx - ix) + (cy - iy) * (cy - iy)
        match best with
        | none => some (i, ds)
        | some (b, bd) => if ds < bd then some (i, ds) else some (b, bd))
    none).map Prod.fst

/-- `findFileInputForCompose` (lines 707-793): modal-scoped search, then the
container hierarchy, then the global proximity fallback. -/
def findFileInputForCompose (d : Dom) (compose : Nat) : Option Nat :=
  let modalContainer := closestFrom d compose isModalMarker
  let p1 :=
    match modalContainer with
    | some c => modalFileInputScan d c
    | none => none
  match p1 with
  | some i => some i
  | none =>
    match containerScan d (containerCandidates d compose) with
    | some i => some i
    | none => proximityScan d compose modalContainer

/-- A file payload: name, byte length, MIME type. -/
structure FileData where
  name : String
  size : Nat
  mime : String
deriving DecidableEq

/-- An observable DOM side effect of the synthetic upload triggers:
assigning the input's `files` collection, focusing the input, or dispatching
an event of the given type, with `target` bound to `boundTarget`, on
`onElem`.  (The delayed `setTimeout` blur / verification logging of the
source produce no claim-relevant effects and are not modelled.) -/
inductive DomAction where
  | setFiles (input : Nat) (file : FileData)
  | focus (input : Nat)
  | dispatch (etype : String) (boundTarget : Nat) (onElem : Nat)
deriving DecidableEq

/-- `triggerFileUploadForClick` (inventory-modal-ui.tsx lines 813-867): with
no re-validation, assign the file, focus the input when unfocused, and
dispatch an `input` then a `change` event, both with `target` bound to the
input. -/
def triggerFileUploadForClick (d : Dom) (input : Nat) (f : FileData) : List DomAction :=
  [DomAction.setFiles input f]
  ++ (if d.activeElement == some input then [] else [DomAction.focus input])
  ++ [DomAction.dispatch "input" input input,
      DomAction.dispatch "change" input input]

/-- `triggerFileUpload` (inventory-button content script lines 279-398):
re-validate the input and throw when it fails; otherwise assign the file,
focus, dispatch `input`, `change`, the synthetic `file-selected` custom
event, and re-dispatch `change` on each ancestor while it is neither null
nor `document.body`. -/
def triggerFileUpload (d : Dom) (input : Nat) (f : FileData) :
    Except String (List DomAction) :=
  if isValidFileInput d input then
    Except.ok
      ([DomAction.setFiles input f]
       ++ (if d.activeElement == some input then [] else [DomAction.focus input])
       ++ [DomAction.dispatch "input" input input,
           DomAction.dispatch "change" input input,
           DomAction.dispatch "file-selected" input input]
       ++ ((d.anc input).takeWhile (fun p => !(p == d.body))).map
            (fun p => DomAction.dispatch "change" input p))
  else Except.error "File input is no longer valid or visible"

/-- A parsed image URL (the result of `new URL(nft.image)`). -/
structure Url where
  protocol : String
  host : String
deriving DecidableEq

/-- The NFT descriptor fields the orchestrator reads; `image = none` models an
image string that the `URL` constructor rejects. -/
structure NftInfo where
  name : Option String
  image : Option Url

/-- The values the orchestrator's four `abortSignal?.aborted` reads observe,
in program order.  (A signal that fires between two reads shows `false` at the
earlier and `true` at the later one.) -/
structure UploadSignal where
  atStart : Bool
  beforeFetch : Bool
  afterFetch : Bool
  beforeTrigger : Bool

/-- What the `fetch` of the NFT image did: resolved with a status and body
size, rejected with `AbortError` (the signal fired in flight), or rejected
with a network error. -/
inductive FetchOutcome where
  | success (status : Nat) (blobSize : Nat)
  | abortError
  | netError
deriving DecidableEq

/-- The observable outcome of one orchestration call: whether a network fetch
was started, the trigger's DOM actions when it ran, and the message of an
exception swallowed by the orchestrator's catch-all (the source's `catch`
only logs — nothing propagates to the caller, which the totality of this
function reflects). -/
structure OrchResult where
  fetchAttempted : Bool
  trigger : Option (List DomAction)
  caughtError : Option String
deriving DecidableEq

/-- The filename derivation
`nft.name?.replace(/[^a-zA-Z0-9]/g, '_') || 'nft'`: a missing name, or one
sanitizing to the empty (falsy) string, falls back to `"nft"`. -/
def sanitizeName (n : Option String) : String :=
  match n with
  | none => "nft"
  | some s =>
    let t := String.mk (s.toList.map (fun c => if c.isAlphanum then c else '_'))
    if t == "" then "nft" else t

/-- `handleNFTClickUpload` (inventory-modal-ui.tsx lines 204-267): abort
check, locate, match, then either use the preloaded file or validate the URL
scheme and fetch, re-checking the signal around the fetch and once more
before invoking `triggerFileUploadForClick`.  Thrown errors land in
`caughtError` via the function-wide catch. -/
def handleNFTClickUpload (d : Dom) (recent : List Nat) (nft : NftInfo)
    (preloadedFile : Option FileData) (sig : UploadSignal)
    (fetchResult : FetchOutcome) : OrchResult :=
  if sig.atStart then ⟨false, none, none⟩
  else
    match findActiveComposeArea d recent with
    | none => ⟨false, none, none⟩
    | some composeArea =>
      match findFileInputForCompose d composeArea with
      | none => ⟨false, none, none⟩
      | some fileInput =>
        match preloadedFile with
        | some f =>
          if sig.beforeTrigger then ⟨false, none, none⟩
          else ⟨false, some (triggerFileUploadForClick d fileInput f), none⟩
        | none =>
          if sig.beforeFetch then ⟨false, none, none⟩
          else
            match nft.image with
            | none => ⟨false, none, some "Invalid URL"⟩
            | some url =>
              if url.protocol == "http:" || url.protocol == "https:" then
                match fetchResult with
                | FetchOutcome.abortError => ⟨true, none, some "AbortError"⟩
                | FetchOutcome.netError => ⟨true, none, some "Failed to fetch"⟩
                | FetchOutcome.success status blobSize =>
                  if sig.afterFetch then ⟨true, none, none⟩
                  else if !(decide (200 ≤ status) && decide (status < 300)) then
                    ⟨true, none, some ("Failed to fetch image: " ++ toString status)⟩
                  else
                    let f : FileData :=
                      ⟨sanitizeName nft.name ++ ".png", blobSize, "image/png"⟩
                    if sig.beforeTrigger then ⟨true, none, none⟩
                    else ⟨true, some (triggerFileUploadForClick d fileInput f), none⟩
              else ⟨false, none, some "Invalid URL protocol - only HTTP/HTTPS allowed"⟩

/-! Concrete documents used to witness and refute the claims. -/

/-- A fully visible computed style. -/
def visStyle : CssStyle := ⟨"block", "visible", "1", "auto", ""⟩

/-- A page with an open dialog (1) holding a valid compose textbox (2) and a
valid image file input (3), plus a background textbox (4) and a background
file input (5). -/
def happyData : Nat → ElemData
  | 0 => { tag := "body", style := visStyle, rect := ⟨0, 0, 800, 600⟩ }
  | 1 => { tag := "div", role := some "dialog", style := visStyle,
           rect := ⟨100, 50, 600, 300⟩ }
  | 2 => { tag := "div", role := some "textbox", contenteditable := some "true",
           style := visStyle, rect := ⟨120, 100, 400, 40⟩ }
  | 3 => { tag := "input", inputType := "file", acceptAttr := "image/*",
           style := visStyle, rect := ⟨130, 260, 10, 10⟩ }
  | 4 => { tag := "div", role := some "textbox", ariaLabel := some "Post text",
           dataTestId := some "tweetTextarea_0", style := visStyle,
           rect := ⟨50, 400, 500, 60⟩ }
  | 5 => { tag := "input", inputType := "file", acceptAttr := "image/*",
           style := visStyle, rect := ⟨55, 470, 10, 10⟩ }
  | _ => {}

def happyAnc : Nat → List Nat
  | 1 => [0]
  | 2 => [1, 0]
  | 3 => [1, 0]
  | 4 => [0]
  | 5 => [0]
  | _ => []

def happyDoc : Dom where
  elems := [0, 1, 2, 3, 4, 5]
  data := happyData
  anc := happyAnc
  body := 0
  innerWidth := 800
  innerHeight := 600
  activeElement := none
  topAt := fun x y => if x == 320 && y == 120 then some 2 else some 1

/-- `happyDoc` with focus resting on the background textbox (4). -/
def focusDoc : Dom where
  elems := [0, 1, 2, 3, 4, 5]
  data := happyData
  anc := happyAnc
  body := 0
  innerWidth := 800
  innerHeight := 600
  activeElement := some 4
  topAt := fun x y => if x == 320 && y == 120 then some 2 else some 1

/-- A page with a dialog (1) holding a small — but validator-valid — on-top
textbox (2), and a large, high-scoring background textbox (3). -/
def narrowModalData : Nat → ElemData
  | 0 => { tag := "body", style := visStyle, rect := ⟨0, 0, 800, 600⟩ }
  | 1 => { tag := "div", role := some "dialog", style := visStyle,
           rect := ⟨0, 0, 300, 300⟩ }
  | 2 => { tag := "div", role := some "textbox", style := visStyle,
           rect := ⟨10, 10, 50, 20⟩ }
  | 3 => { tag := "div", role := some "textbox", ariaLabel := some "Post text",
           dataTestId := some "tweetTextarea_0", style := visStyle,
           rect := ⟨50, 200, 600, 100⟩ }
  | _ => {}

def narrowModalDoc : Dom where
  elems := [0, 1, 2, 3]
  data := narrowModalData
  anc := fun i => match i with
    | 1 => [0]
    | 2 => [1, 0]
    | 3 => [0]
    | _ => []
  body := 0
  innerWidth := 800
  innerHeight := 600
  activeElement := none
  topAt := fun x y => if x == 35 && y == 20 then some 2 else some 1

/-- A page where the dialog (2) holds a compose textbox (3) but no file
input, while the shared `form` ancestor (1) holds a valid file input (4)
outside the dialog. -/
def sharedFormData : Nat → ElemData
  | 0 => { tag := "body", style := visStyle, rect := ⟨0, 0, 800, 600⟩ }
  | 1 => { tag := "form", style := visStyle, rect := ⟨0, 0, 800, 600⟩ }
  | 2 => { tag := "div", role := some "dialog", style := visStyle,
           rect := ⟨100, 50, 600, 300⟩ }
  | 3 => { tag := "div", role := some "textbox", contenteditable := some "true",
           style := visStyle, rect := ⟨120, 100, 400, 40⟩ }
  | 4 => { tag := "input", inputType := "file", acceptAttr := "image/*",
           style := visStyle, rect := ⟨10, 500, 10, 10⟩ }
  | _ => {}

def sharedFormDoc : Dom where
  elems := [0, 1, 2, 3, 4]
  data := sharedFormData
  anc := fun i => match i with
    | 1 => [0]
    | 2 => [1, 0]
    | 3 => [2, 1, 0]
    | 4 => [1, 0]
    | _ => []
  body := 0
  innerWidth := 800
  innerHeight := 600
  activeElement := none
  topAt := fun _ _ => some 3

/-- A page whose only file input (1) is hidden (`display: none`), hence
invalid for both file-input validators. -/
def hiddenInputDoc : Dom where
  elems := [0, 1]
  data := fun i => match i with
    | 0 => { tag := "body", style := visStyle, rect := ⟨0, 0, 800, 600⟩ }
    | 1 => { tag := "input", inputType := "file", acceptAttr := "image/*",
             style := ⟨"none", "visible", "1", "auto", ""⟩, rect := ⟨0, 0, 10, 10⟩ }
    | _ => {}
  anc := fun i => match i with
    | 1 => [0]
    | _ => []
  body := 0
  innerWidth := 800
  innerHeight := 600
  activeElement := none
  topAt := fun _ _ => some 0

/-- A document alongside two detached nodes: a would-be compose div (8) and a
file input (9), neither of which has the body among its ancestors. -/
def detachedDoc : Dom where
  elems := [0, 8, 9]
  data := fun i => match i with
    | 0 => { tag := "body", style := visStyle, rect := ⟨0, 0, 800, 600⟩ }
    | 8 => { tag := "div", role := some "textbox", style := visStyle,
             rect := ⟨10, 10, 400, 40⟩ }
    | 9 => { tag := "input", inputType := "file", acceptAttr := "image/*",
             style := visStyle, rect := ⟨0, 0, 100, 40⟩ }
    | _ => {}
  anc := fun _ => []
  body := 0
  innerWidth := 800
  innerHeight := 600
  activeElement := none
  topAt := fun _ _ => some 0

/-! Helper lemmas. -/

theorem find?_eq_some_of_unique {α} {l : List α} {p : α → Bool} {x : α}
    (hx : x ∈ l) (hpx : p x = true) (huniq : ∀ y ∈ l, p y = true → y = x) :
    l.find? p = some x := by
  induction l with
  | nil => exact absurd hx (List.not_mem_nil x)
  | cons a t ih =>
    by_cases hpa : p a = true
    · rw [List.find?_cons_of_pos _ hpa, huniq a (List.mem_cons_self a t) hpa]
    · rw [List.find?_cons_of_neg _ (by simpa using hpa)]
      rcases List.mem_cons.mp hx with h | h
      · exact absurd (h ▸ hpx) hpa
      · exact ih h (fun y hy hpy => huniq y (List.mem_cons_of_mem a hy) hpy)

theorem bestScoredAux_mem {d : Dom} {l : List Nat} {acc : Option Nat} {s : Q} {i : Nat}
    (h : bestScoredAux d l acc s = some i) : i ∈ l ∨ acc = some i := by
  induction l generalizing acc s with
  | nil => exact Or.inr h
  | cons e t ih =>
    unfold bestScoredAux at h
    by_cases hc : (isValidComposeElement d e &&
        decide (s < scoreComposeElement d e)) = true
    · rw [if_pos hc] at h
      rcases ih h with h' | h'
      · exact Or.inl (List.mem_cons_of_mem _ h')
      · exact Or.inl (Option.some_inj.mp h' ▸ List.mem_cons_self e t)
    · rw [if_neg hc] at h
      rcases ih h with h' | h'
      · exact Or.inl (List.mem_cons_of_mem _ h')
      · exact Or.inr h'

theorem bestScored_mem {d : Dom} {l : List Nat} {i : Nat}
    (h : bestScored d l = some i) : i ∈ l := by
  rcases bestScoredAux_mem h with h' | h'
  · exact h'
  · exact absurd h' (by simp)

/-- A node the document does not contain fails the compose validator: its
reported bounding rect is all-zero, so the dimension floor rejects it. -/
theorem compose_invalid_of_detached (d : Dom) (i : Nat)
    (h : d.attachedB i = false) : isValidComposeElement d i = false := by
  cases hv : isValidComposeElement d i with
  | false => rfl
  | true =>
    exfalso
    simp only [isValidComposeElement, Bool.and_eq_true] at hv
    obtain ⟨⟨⟨⟨⟨⟨⟨⟨_, _⟩, _⟩, _⟩, hdims⟩, _⟩, _⟩, _⟩, _⟩ := hv
    rw [Dom.boundingRect, h, if_neg Bool.false_ne_true] at hdims
    exact absurd hdims (by decide)

/-- Anything the locator returns is attached to the document (used for close
variants of stale-candidate eviction). -/
theorem attached_of_valid (d : Dom) (i : Nat)
    (h : isValidComposeElement d i = true) : d.attachedB i = true := by
  cases ha : d.attachedB i with
  | true => rfl
  | false => exact absurd h (by rw [compose_invalid_of_detached d i ha]; simp)

theorem mem_queryAllDoc_attached {d : Dom} {p : ElemData → Bool} {i : Nat}
    (h : i ∈ queryAllDoc d p) : d.attachedB i = true := by
  have := (List.mem_filter.mp h).2
  simp only [Bool.and_eq_true] at this
  exact this.1

theorem mem_queryAllDocDesc_attached {d : Dom} {pa ps : ElemData → Bool} {i : Nat}
    (h : i ∈ queryAllDocDesc d pa ps) : d.attachedB i = true := by
  have := (List.mem_filter.mp h).2
  simp only [Bool.and_eq_true] at this
  exact this.1.1

/-! ## C10 — focus strictly dominates every other strategy -/

/-- C10: whenever the document's currently focused element passes the
compose-element validator, `findActiveComposeArea` returns that focused
element immediately, for any recent-candidate set and in particular even when
a modal container with its own valid on-top compose area is present. -/
theorem findActiveComposeArea_focus_dominates (d : Dom) (recent : List Nat) (f : Nat)
    (hf : d.activeElement = some f) (hv : isValidComposeElement d f = true) :
    findActiveComposeArea d recent = some f := by
  simp [findActiveComposeArea, composeStrategyFocus, hf, hv]

theorem findActiveComposeArea_focus_dominates_witness :
    isValidComposeElement focusDoc 4 = true ∧
      findActiveComposeArea focusDoc [] = some 4 :=
  ⟨by decide, findActiveComposeArea_focus_dominates focusDoc [] 4 rfl (by decide)⟩

/-! ## C5 — validator behaviour on detached nodes -/

/-- C5 counterexample: a detached file input (browsers report empty computed
style for it, which the display/visibility check passes, and its accept
attribute still mentions images), yet `isValidFileInputForClick` accepts it,
so the claim that both validators return false on every detached node is
false. -/
theorem validators_detached_cex :
    detachedDoc.attachedB 9 = false ∧
      isValidFileInputForClick detachedDoc 9 = true := by decide

/-- C5 (amended): `isValidComposeElement` does return false for every node not
attached to the document — the all-zero rect a detached node reports fails the
dimension floor — and, being a total boolean function, it never throws.
`isValidFileInputForClick`, which checks no dimensions, does not share this
property. -/
theorem isValidComposeElement_detached (d : Dom) (i : Nat)
    (h : d.attachedB i = false) : isValidComposeElement d i = false :=
  compose_invalid_of_detached d i h

theorem isValidComposeElement_detached_witness :
    detachedDoc.attachedB 8 = false ∧
      isValidComposeElement detachedDoc 8 = false :=
  ⟨by decide, isValidComposeElement_detached detachedDoc 8 (by decide)⟩

/-! ## C6 — re-validation before triggering -/

/-- C6 counterexample: the click-path trigger `triggerFileUploadForClick`
performs no re-validation — on an input that fails both file-input validators
(hidden via `display: none`) it still assigns the file and dispatches the
`input` and `change` events. -/
theorem triggerFileUploadForClick_no_revalidation_cex :
    isValidFileInputForClick hiddenInputDoc 1 = false ∧
    isValidFileInput hiddenInputDoc 1 = false ∧
    triggerFileUploadForClick hiddenInputDoc 1 ⟨"nft.png", 500, "image/png"⟩ =
      [DomAction.setFiles 1 ⟨"nft.png", 500, "image/png"⟩, DomAction.focus 1,
       DomAction.dispatch "input" 1 1, DomAction.dispatch "change" 1 1] := by decide

/-- C6 (amended): the drag-path trigger `triggerFileUpload` re-validates the
input immediately before use and fails loudly — it throws and performs no
file assignment and no event dispatch when the input no longer passes
`isValidFileInput`; the click-path trigger performs no such re-validation. -/
theorem triggerFileUpload_throws_on_invalid (d : Dom) (i : Nat) (f : FileData)
    (h : isValidFileInput d i = false) :
    triggerFileUpload d i f =
      Except.error "File input is no longer valid or visible" := by
  unfold triggerFileUpload
  rw [h]
  rfl

theorem triggerFileUpload_throws_on_invalid_witness :
    isValidFileInput hiddenInputDoc 1 = false ∧
    triggerFileUpload hiddenInputDoc 1 ⟨"a.png", 1, "image/png"⟩ =
      Except.error "File input is no longer valid or visible" :=
  ⟨by decide,
   triggerFileUpload_throws_on_invalid hiddenInputDoc 1 ⟨"a.png", 1, "image/png"⟩ (by decide)⟩

/-! ## C8 — stale candidates are never returned -/

theorem composeStrategyFocus_valid {d : Dom} {i : Nat}
    (h : composeStrategyFocus d = some i) : isValidComposeElement d i = true := by
  unfold composeStrategyFocus at h
  cases hae : d.activeElement with
  | none => rw [hae] at h; simp at h
  | some f =>
    rw [hae] at h
    by_cases hv : isValidComposeElement d f = true
    · have he : f = i := by simpa [hv] using h
      exact he ▸ hv
    · simp [hv] at h

theorem composeStrategyRecent_attached {d : Dom} {recent : List Nat} {i : Nat}
    (h : composeStrategyRecent d recent = some i) : d.attachedB i = true := by
  unfold composeStrategyRecent at h
  have hp := List.find?_some h
  simp only [Bool.and_eq_true] at hp
  exact hp.1.2

theorem findModalComposeArea_attached {d : Dom} {i : Nat}
    (h : findModalComposeArea d = some i) : d.attachedB i = true := by
  unfold findModalComposeArea at h
  by_cases he : (queryAllDoc d isModalMarker).isEmpty = true
  · rw [if_pos he] at h; exact Option.noConfusion h
  · rw [if_neg he] at h
    have hmem := List.mem_of_find?_eq_some h
    unfold modalComposeCandidates at hmem
    rcases List.mem_flatMap.mp hmem with ⟨pa, _, hin⟩
    exact mem_queryAllDocDesc_attached hin

theorem findBestVisibleComposeArea_attached {d : Dom} {i : Nat}
    (h : findBestVisibleComposeArea d = some i) : d.attachedB i = true := by
  unfold findBestVisibleComposeArea at h
  rcases List.mem_flatMap.mp (bestScored_mem h) with ⟨p, _, hin⟩
  exact mem_queryAllDoc_attached hin

theorem composeStrategyFallback_attached {d : Dom} {i : Nat}
    (h : composeStrategyFallback d = some i) : d.attachedB i = true := by
  unfold composeStrategyFallback at h
  rcases List.mem_flatMap.mp (bestScored_mem h) with ⟨p, _, hin⟩
  exact mem_queryAllDoc_attached hin

/-- C8: whatever `findActiveComposeArea` returns is attached to the document,
for every state of the recent-candidate set — in particular a recent candidate
whose node has been removed from the document is never returned, even before
the periodic sweep runs: strategy 2 re-checks `document.contains` and the
validator at read time, strategy 1 only accepts validator-passing (hence
attached) elements, and strategies 3-5 draw from document-scoped queries. -/
theorem findActiveComposeArea_stale_eviction (d : Dom) (recent : List Nat) (i : Nat)
    (h : findActiveComposeArea d recent = some i) : d.attachedB i = true := by
  unfold findActiveComposeArea at h
  cases h1 : composeStrategyFocus d with
  | some e =>
    rw [h1] at h
    simp only [] at h
    have he : e = i := by simpa using h
    exact he ▸ attached_of_valid d e (composeStrategyFocus_valid h1)
  | none =>
    rw [h1] at h
    cases h2 : composeStrategyRecent d recent with
    | some e =>
      rw [h2] at h
      have he : e = i := by simpa using h
      exact he ▸ composeStrategyRecent_attached h2
    | none =>
      rw [h2] at h
      cases h3 : findModalComposeArea d with
      | some e =>
        rw [h3] at h
        have he : e = i := by simpa using h
        exact he ▸ findModalComposeArea_attached h3
      | none =>
        rw [h3] at h
        cases h4 : findBestVisibleComposeArea d with
        | some e =>
          rw [h4] at h
          have he : e = i := by simpa using h
          exact he ▸ findBestVisibleComposeArea_attached h4
        | none =>
          rw [h4] at h
          exact composeStrategyFallback_attached (by simpa using h)

theorem findActiveComposeArea_stale_eviction_witness :
    findActiveComposeArea happyDoc [2] = some 2 ∧ happyDoc.attachedB 2 = true :=
  ⟨by decide, findActiveComposeArea_stale_eviction happyDoc [2] 2 (by decide)⟩

/-! ## C3 — trigger event order -/

theorem takeWhile_append_last (b : Nat) (pre : List Nat) (h : b ∉ pre) :
    (pre ++ [b]).takeWhile (fun x => !(x == b)) = pre := by
  induction pre with
  | nil => simp [List.takeWhile]
  | cons a t ih =>
    have h1 : b ≠ a ∧ b ∉ t := by simpa [List.mem_cons, not_or] using h
    have hab : (a == b) = false := by
      simpa using (Ne.symm h1.1)
    simp [List.takeWhile_cons, hab, ih h1.2]

/-- C3: for every file input (here: a valid, attached one — the source throws
on invalid inputs, and the ancestor walk of an attached input ends at the
body) and every file, `triggerFileUpload` assigns the file and then dispatches
first an `input` event and then a `change` event, both with `target` bound to
the input, followed by the synthetic custom event, and only then re-dispatches
a `change` event on exactly the ancestors strictly below `document.body`
(`pre`), excluding the body itself. -/
theorem triggerFileUpload_event_order (d : Dom) (input : Nat) (f : FileData)
    (pre : List Nat)
    (hv : isValidFileInput d input = true)
    (hanc : d.anc input = pre ++ [d.body])
    (hnb : d.body ∉ pre) :
    triggerFileUpload d input f = Except.ok (
      [DomAction.setFiles input f]
      ++ (if d.activeElement == some input then [] else [DomAction.focus input])
      ++ [DomAction.dispatch "input" input input,
          DomAction.dispatch "change" input input,
          DomAction.dispatch "file-selected" input input]
      ++ pre.map (fun p => DomAction.dispatch "change" input p)) := by
  simp only [triggerFileUpload, hv, if_true, hanc,
    takeWhile_append_last d.body pre hnb]

theorem triggerFileUpload_event_order_witness :
    isValidFileInput happyDoc 3 = true ∧
    triggerFileUpload happyDoc 3 ⟨"nft.png", 500, "image/png"⟩ = Except.ok
      [DomAction.setFiles 3 ⟨"nft.png", 500, "image/png"⟩, DomAction.focus 3,
       DomAction.dispatch "input" 3 3, DomAction.dispatch "change" 3 3,
       DomAction.dispatch "file-selected" 3 3, DomAction.dispatch "change" 3 1] :=
  ⟨by decide, by
    have h := triggerFileUpload_event_order happyDoc 3 ⟨"nft.png", 500, "image/png"⟩
      [1] (by decide) (by decide) (by decide)
    rw [h]
    rfl⟩

/-! ## C9 — the container-hierarchy search has no modal filter -/

/-- C9: when the modal container (2) around the compose area (3) holds no
valid file input, the Priority-2 container search — here via the shared
`form` ancestor (1) — returns a valid file input (4) that is not inside the
modal; the modal-containment filter is applied only by the modal-scoped scan
and the proximity fallback. -/
theorem findFileInput_container_search_escapes_modal :
    closestFrom sharedFormDoc 3 isModalMarker = some 2 ∧
    modalFileInputScan sharedFormDoc 2 = none ∧
    isValidFileInputForClick sharedFormDoc 4 = true ∧
    (sharedFormDoc.anc 4).contains 2 = false ∧
    findFileInputForCompose sharedFormDoc 3 = some 4 := by decide

/-! ## C1 — modal-scoped matcher containment -/

/-- C1: when the chosen compose area lies inside a modal/dialog container —
`c` being the container its `closest` call finds — and that same container
contains a file input passing `isValidFileInputForClick`, the matcher returns
a file input inside that container, whatever other (even nearer) file inputs
exist outside the modal: the Priority-1 scan searches exclusively within `c`
and cannot come back empty. -/
theorem findFileInputForCompose_modal_containment (d : Dom) (compose c x : Nat)
    (hc : closestFrom d compose isModalMarker = some c)
    (hx : x ∈ d.elems) (hxa : (d.anc x).contains c = true)
    (hxt : (d.data x).tag = "input")
    (hxv : isValidFileInputForClick d x = true) :
    ∃ y, findFileInputForCompose d compose = some y ∧ (d.anc y).contains c = true := by
  have hxty : ((d.data x).inputType == "file") = true := by
    simp only [isValidFileInputForClick, Bool.and_eq_true] at hxv
    exact hxv.1.1
  have hmem : x ∈ queryAllEl d c (fun e => e.tag == "input" && e.inputType == "file") := by
    simp only [queryAllEl, List.mem_filter, Bool.and_eq_true]
    exact ⟨hx, hxa, by simp [hxt], hxty⟩
  have hflat : x ∈ fileInputSelectors.flatMap (fun s => queryAllEl d c s) := by
    refine List.mem_flatMap.mpr ⟨fun e => e.tag == "input" && e.inputType == "file", ?_, hmem⟩
    simp [fileInputSelectors]
  cases hfind : (fileInputSelectors.flatMap (fun s => queryAllEl d c s)).find?
      (fun i => isValidFileInputForClick d i) with
  | none =>
    exfalso
    have := List.find?_eq_none.mp hfind x hflat
    exact this hxv
  | some y =>
    refine ⟨y, ?_, ?_⟩
    · unfold findFileInputForCompose
      rw [hc]
      simp only [modalFileInputScan, hfind]
    · have hymem := List.mem_of_find?_eq_some hfind
      rcases List.mem_flatMap.mp hymem with ⟨s, _, hys⟩
      have := (List.mem_filter.mp hys).2
      simp only [Bool.and_eq_true] at this
      exact this.1

theorem findFileInputForCompose_modal_containment_witness :
    closestFrom happyDoc 2 isModalMarker = some 1 ∧
    isValidFileInputForClick happyDoc 3 = true ∧
    (∃ y, findFileInputForCompose happyDoc 2 = some y ∧
      (happyDoc.anc y).contains 1 = true) :=
  ⟨by decide, by decide,
   findFileInputForCompose_modal_containment happyDoc 2 1 3
     (by decide) (by decide) (by decide) (by decide) (by decide)⟩

/-! ## C2 — modal priority in the locator -/

/-- C2 counterexample: both textboxes pass the validator, 2 sits inside a
dialog-role container that is visually on top, 3 sits in the background
outside any modal marker, nothing is focused and the recent set is empty —
yet the locator returns the background textbox 3.  The modal-scoped strategy
demands a rect wider than 100 and taller than 20, stricter than the
validator's 30x15 floor, so the 50x20 modal textbox falls through to the
score-based strategy, where the larger, labelled background textbox wins. -/
theorem findActiveComposeArea_modal_priority_cex :
    isValidComposeElement narrowModalDoc 2 = true ∧
    isValidComposeElement narrowModalDoc 3 = true ∧
    (narrowModalDoc.data 1).role = some "dialog" ∧
    narrowModalDoc.anc 2 = [1, 0] ∧
    isElementOnTop narrowModalDoc 2 = true ∧
    ((narrowModalDoc.anc 3).all fun j => !isModalMarker (narrowModalDoc.data j)) = true ∧
    narrowModalDoc.activeElement = none ∧
    findActiveComposeArea narrowModalDoc [] = some 3 := by decide

/-- C2 (amended): with the recent set empty and no validator-passing element
focused, if the document shows a modal marker and the modal compose area `a`
is a textbox inside a modal container that, beyond passing the validator, is
wider than 100, taller than 20, vertically inside the viewport, and visually
on top — and is the only modal-scoped candidate passing those checks — then
`findActiveComposeArea` returns `a`, whatever valid compose areas exist in
the background. -/
theorem findActiveComposeArea_modal_priority (d : Dom) (a : Nat)
    (hfoc : d.activeElement.all (fun f => !isValidComposeElement d f) = true)
    (hmarker : (queryAllDoc d isModalMarker).isEmpty = false)
    (ha : a ∈ modalComposeCandidates d)
    (hpass : modalComposeCheck d a = true)
    (huniq : ∀ e ∈ modalComposeCandidates d, modalComposeCheck d e = true → e = a) :
    findActiveComposeArea d [] = some a := by
  have h1 : composeStrategyFocus d = none := by
    unfold composeStrategyFocus
    cases hae : d.activeElement with
    | none => rfl
    | some f =>
      rw [hae] at hfoc
      simp only [Option.all_some, Bool.not_eq_true'] at hfoc
      simp [hfoc]
  have h3 : findModalComposeArea d = some a := by
    unfold findModalComposeArea
    rw [hmarker]
    simp only [Bool.false_eq_true, if_false]
    exact find?_eq_some_of_unique ha hpass huniq
  unfold findActiveComposeArea
  rw [h1]
  have h2 : composeStrategyRecent d [] = none := rfl
  rw [h2, h3]

theorem findActiveComposeArea_modal_priority_witness :
    modalComposeCheck happyDoc 2 = true ∧
    findActiveComposeArea happyDoc [] = some 2 :=
  ⟨by decide,
   findActiveComposeArea_modal_priority happyDoc 2
     (by decide) (by decide) (by decide) (by decide) (by decide)⟩

/-! ## C4 — URL policy before the fetch -/

/-- A signal that never fires. -/
def quietSig : UploadSignal := ⟨false, false, false, false⟩

/-- A signal that fires while the fetch is in flight: the post-fetch and
pre-trigger reads observe `true`. -/
def abortedAfterFetchSig : UploadSignal := ⟨false, false, true, true⟩

def ftpNft : NftInfo := ⟨some "My NFT", some ⟨"ftp:", "example.com"⟩⟩

def localhostNft : NftInfo := ⟨some "My NFT", some ⟨"http:", "localhost"⟩⟩

def goodNft : NftInfo := ⟨some "My NFT", some ⟨"https:", "img.example.com"⟩⟩

/-- C4 counterexample: an image URL whose host is `localhost` but whose
scheme is `http:` passes the orchestrator's URL validation, and the fetch is
attempted — the code checks only the scheme, never the host. -/
theorem handleNFTClickUpload_localhost_fetch_cex :
    localhostNft.image = some ⟨"http:", "localhost"⟩ ∧
    (handleNFTClickUpload happyDoc [] localhostNft none quietSig
      (FetchOutcome.success 200 100)).fetchAttempted = true := by decide

/-- C4 (amended): when the orchestrator must fetch the image itself, a URL
whose scheme is neither `http:` nor `https:` (so in particular `file:` and
`ftp:`) is rejected before any fetch attempt and no trigger runs; no
host-based check (localhost / private addresses) is performed. -/
theorem handleNFTClickUpload_scheme_rejection (d : Dom) (recent : List Nat)
    (nft : NftInfo) (sig : UploadSignal) (fr : FetchOutcome) (url : Url)
    (himg : nft.image = some url)
    (hp1 : url.protocol ≠ "http:") (hp2 : url.protocol ≠ "https:") :
    (handleNFTClickUpload d recent nft none sig fr).fetchAttempted = false ∧
    (handleNFTClickUpload d recent nft none sig fr).trigger = none := by
  have hp : (url.protocol == "http:" || url.protocol == "https:") = false := by
    simp [hp1, hp2]
  unfold handleNFTClickUpload
  split
  · exact ⟨rfl, rfl⟩
  · split
    · exact ⟨rfl, rfl⟩
    · split
      · exact ⟨rfl, rfl⟩
      · split
        · rename_i f heq
          exact Option.noConfusion heq
        · split
          · exact ⟨rfl, rfl⟩
          · rw [himg]
            simp [hp]

theorem handleNFTClickUpload_scheme_rejection_witness :
    ftpNft.image = some ⟨"ftp:", "example.com"⟩ ∧
    (handleNFTClickUpload happyDoc [] ftpNft none quietSig
      (FetchOutcome.success 200 100)).fetchAttempted = false ∧
    (handleNFTClickUpload happyDoc [] ftpNft none quietSig
      (FetchOutcome.success 200 100)).trigger = none :=
  ⟨rfl,
   (handleNFTClickUpload_scheme_rejection happyDoc [] ftpNft quietSig
      (FetchOutcome.success 200 100) ⟨"ftp:", "example.com"⟩ rfl
      (by decide) (by decide)).1,
   (handleNFTClickUpload_scheme_rejection happyDoc [] ftpNft quietSig
      (FetchOutcome.success 200 100) ⟨"ftp:", "example.com"⟩ rfl
      (by decide) (by decide)).2⟩

/-! ## C7 — cancellation prevents DOM mutation -/

/-- C7: with no preloaded file, if the abort signal was set before the fetch
resolved — so either the fetch rejected with `AbortError`, or the post-fetch
read of the signal observes `true` — the orchestrator never invokes the
trigger: no file assignment and no event dispatch happen for that call.  The
orchestrator is a total function whose every error path lands in
`caughtError`, reflecting that its catch-all lets nothing propagate to the
caller. -/
theorem handleNFTClickUpload_abort_no_mutation (d : Dom) (recent : List Nat)
    (nft : NftInfo) (sig : UploadSignal) (fr : FetchOutcome)
    (h : sig.afterFetch = true ∨ fr = FetchOutcome.abortError) :
    (handleNFTClickUpload d recent nft none sig fr).trigger = none := by
  unfold handleNFTClickUpload
  split
  · rfl
  · split
    · rfl
    · split
      · rfl
      · split
        · rename_i f heq
          exact Option.noConfusion heq
        · split
          · rfl
          · split
            · rfl
            · split
              · split
                · rfl
                · rfl
                · rcases h with hA | hA
                  · simp [hA]
                  · simp_all
              · rfl

theorem handleNFTClickUpload_abort_no_mutation_witness :
    (handleNFTClickUpload happyDoc [] goodNft none abortedAfterFetchSig
      (FetchOutcome.success 200 100)).fetchAttempted = true ∧
    (handleNFTClickUpload happyDoc [] goodNft none abortedAfterFetchSig
      (FetchOutcome.success 200 100)).trigger = none :=
  ⟨by decide,
   handleNFTClickUpload_abort_no_mutation happyDoc [] goodNft abortedAfterFetchSig
     (FetchOutcome.success 200 100) (Or.inl rfl)⟩


end NestFTs
